import Mathlib

/-!
Shallow embedding of the `arosics` repository (src/components/DeShifter.py):
the DESHIFTER class, its constructor, output-grid and output-extent
resolution, and the shift-correction state machine, together with theorems
settling the specification's claims.

Coordinates are embedded as rationals, projections as strings, pixel arrays
as an opaque free term algebra.  External capabilities that live outside the
repository sources (py_tools_ds helpers, GeoArray methods, the GDAL warp)
are modelled from the specification and say so in their doc comments.
-/

namespace Arosics

/-- Kernel/`norm_num`-friendly minimum on the rationals. -/
def qmin (a b : ℚ) : ℚ := if a ≤ b then a else b

/-- Kernel/`norm_num`-friendly maximum on the rationals. -/
def qmax (a b : ℚ) : ℚ := if a ≤ b then b else a

/-- Kernel/`norm_num`-friendly absolute value on the rationals. -/
def qabs (a : ℚ) : ℚ := if a < 0 then -a else a

/-- Python float modulo: `a % b = a - b*floor(a/b)` (sign follows the divisor). -/
def qmod (a b : ℚ) : ℚ := a - b * (⌊a / b⌋ : ℤ)

/-- Rounding direction of the nearest-grid-coordinate search, mirroring the
string values "on" and "off" passed at DeShifter.py lines 186-189. -/
inductive RoundAlg where
  | on
  | off
deriving DecidableEq

/-- Modelled from the spec: nearest-coordinate search with directional rounding
and extrapolation along the grid pitch (`py_tools_ds.numeric.vector.find_nearest`,
which is outside src/).  The two given samples span an equally spaced lattice;
`on` returns the smallest lattice value greater than or equal to the target and
`off` the largest lattice value less than or equal to it, extrapolating past the
samples along the same pitch.  The directions follow the source comment at
DeShifter.py line 184 ("output coords are moved INSIDE the input array") and
§2 of the spec (inward for min corners).  The ceiling is written `-⌊-x⌋`. -/
def find_nearest (g : ℚ × ℚ) (value : ℚ) (roundAlg : RoundAlg) : ℚ :=
  let a := qmin g.1 g.2
  let inc := qabs (g.2 - g.1)
  if inc = 0 then a
  else
    match roundAlg with
    | .on  => a + inc * ((-⌊-((value - a) / inc)⌋ : ℤ) : ℚ)
    | .off => a + inc * ((⌊(value - a) / inc⌋ : ℤ) : ℚ)

/-- An affine geotransform `(c0, .., c5)` in GDAL order: origin X, pixel width,
row rotation, origin Y, column rotation, pixel height. -/
structure Geotransform where
  c0 : ℚ
  c1 : ℚ
  c2 : ℚ
  c3 : ℚ
  c4 : ℚ
  c5 : ℚ
deriving DecidableEq

/-- An output grid `[[x0,x1],[y0,y1]]`: one two-sample axis definition per axis. -/
structure OutGrid where
  gx : ℚ × ℚ
  gy : ℚ × ℚ
deriving DecidableEq

/-- A map extent `(xmin, ymin, xmax, ymax)`. -/
structure Extent where
  xmin : ℚ
  ymin : ℚ
  xmax : ℚ
  ymax : ℚ
deriving DecidableEq

/-- Membership of a coordinate in the lattice spanned by a two-sample axis
definition: `v` lies on the (extrapolated) grid of `p` iff `v - p.1` is an
integer multiple of the pitch `p.2 - p.1`.  For a degenerate axis (zero pitch)
this degenerates to `v = p.1`. -/
def onGrid (p : ℚ × ℚ) (v : ℚ) : Prop :=
  (p.2 - p.1) * (⌊(v - p.1) / (p.2 - p.1)⌋ : ℤ) = v - p.1

instance (p : ℚ × ℚ) (v : ℚ) : Decidable (onGrid p v) := by
  unfold onGrid; infer_instance

/-- Modelled from the spec: projection equality as consumed by the entry guard,
`equal_projection = (reference_projection == image_projection)`
(`py_tools_ds.ptds.geo.projection.prj_equal`, which is outside src/). -/
def prj_equal (prj1 prj2 : String) : Prop := prj1 = prj2

instance (prj1 prj2 : String) : Decidable (prj_equal prj1 prj2) := by
  unfold prj_equal; infer_instance

/-- Modelled from the spec: "`grid_matches` = (image geotransform already
coincides with the resolved output grid)"
(`py_tools_ds.ptds.geo.coord_grid.is_coord_grid_equal`, which is outside src/):
the geotransform's origin lies on both axis lattices and its pixel sizes equal
the grid pitches in magnitude. -/
def is_coord_grid_equal (gt : Geotransform) (grid : OutGrid) : Prop :=
  onGrid grid.gx gt.c0 ∧ onGrid grid.gy gt.c3 ∧
    qabs gt.c1 = qabs (grid.gx.2 - grid.gx.1) ∧ qabs gt.c5 = qabs (grid.gy.2 - grid.gy.1)

instance (gt : Geotransform) (grid : OutGrid) : Decidable (is_coord_grid_equal gt grid) := by
  unfold is_coord_grid_equal; infer_instance

/-- Modelled from the spec: "map info" is an alternate encoding of a
geotransform plus projection (ENVI map info, converted by
`py_tools_ds.ptds.geo.map_info`, which is outside src/). -/
structure MapInfo where
  gt : Geotransform
  prj : String
deriving DecidableEq

/-- Modelled from the spec: `geotransform2mapinfo` re-encodes a geotransform
and projection as map info. -/
def geotransform2mapinfo (gt : Geotransform) (prj : String) : MapInfo := ⟨gt, prj⟩

/-- Modelled from the spec: `mapinfo2geotransform` recovers the geotransform
encoded in map info. -/
def mapinfo2geotransform (mi : MapInfo) : Geotransform := mi.gt

/-- A ground control point (opaque to this core; only passed through). -/
structure GCP where
  id : ℕ
deriving DecidableEq

/-- Pixel arrays as an opaque free term algebra: the engine never looks at
pixel values, it only wraps, clips and warps whole arrays. -/
inductive Arr where
  /-- a source image's backing array -/
  | src (id : ℕ)
  /-- one band of an array (`im2shift[band]`) -/
  | bandOf (a : Arr) (b : ℤ)
  /-- Modelled from the spec: sub-window extraction at map coordinates with
  no-data fill (`GeoArray.get_mapPos`, which is outside src/) -/
  | mapPos (a : Arr) (gt : Geotransform) (prj : String) (ext : Extent) (fill : Option ℚ)
  /-- Modelled from the spec: result of the in-process reprojection engine -/
  | warped (a : Arr) (gt : Geotransform) (srcPrj dstPrj : String) (rsp : ℤ)
      (bounds : Extent) (gsd : ℚ × ℚ) (gcps : Option (List GCP))
  /-- Modelled from the spec: array read back from the external warp's output file -/
  | fileRead (path : String) (band : Option ℤ)
deriving DecidableEq

/-- A produced georeferenced raster (array, geotransform, projection). -/
structure GeoArrayV where
  arr : Arr
  gt : Geotransform
  prj : String
deriving DecidableEq

/-- The borrowed input GeoArray: backing array, georeferencing, no-data value,
shape, and the two externally computed bounding geometries.
`footprint_bounds` is modelled from the spec: `footprint_bounds(raster) ->
(xmin,ymin,xmax,ymax)` over non-no-data pixels (`GeoArray.footprint_poly.bounds`,
which is outside src/), carried as data since it depends on pixel values. -/
structure GeoArrayIn where
  arr : Arr
  geotransform : Geotransform
  projection : String
  nodata : Option ℚ
  rows : ℕ
  cols : ℕ
  footprint_bounds : Extent
  filePath : String
deriving DecidableEq

/-- Modelled from the spec: the image's native X pixel size (`GeoArray.xgsd`,
magnitude of the geotransform's pixel width). -/
def GeoArrayIn.xgsd (g : GeoArrayIn) : ℚ := qabs g.geotransform.c1

/-- Modelled from the spec: the image's native Y pixel size (`GeoArray.ygsd`,
magnitude of the geotransform's pixel height). -/
def GeoArrayIn.ygsd (g : GeoArrayIn) : ℚ := qabs g.geotransform.c5

/-- Modelled from the spec: `bounding_box(raster) -> (xmin, xmax, ymin, ymax)`
over the full raster (`GeoArray.box.boundsMap`, which is outside src/), in the
component order the source destructures at DeShifter.py line 180. -/
def GeoArrayIn.boundsMap (g : GeoArrayIn) : ℚ × ℚ × ℚ × ℚ :=
  let xend := g.geotransform.c0 + (g.cols : ℚ) * g.geotransform.c1
  let yend := g.geotransform.c3 + (g.rows : ℚ) * g.geotransform.c5
  (qmin g.geotransform.c0 xend, qmax g.geotransform.c0 xend,
   qmin g.geotransform.c3 yend, qmax g.geotransform.c3 yend)

/-- Modelled from the spec: "extract sub-window at these map coordinates,
filling any area outside the source array with the configured no-data value"
(`GeoArray.get_mapPos`, which is outside src/).  Returns the extracted array,
the geotransform anchored at the requested extent's upper-left corner with the
source pixel sizes, and the projection. -/
def get_mapPos (a : Arr) (gt : Geotransform) (prj : String) (ext : Extent)
    (fillVal : Option ℚ) : Arr × Geotransform × String :=
  (Arr.mapPos a gt prj ext fillVal,
   ⟨ext.xmin, gt.c1, 0, ext.ymax, 0, gt.c5⟩,
   prj)

/-- Modelled from the spec: the in-process reprojection engine
(`py_tools_ds.ptds.geo.raster.reproject.warp_ndarray`, which is outside src/):
returns the warped array, a geotransform anchored at the requested bounds with
the requested pixel size, and the target projection. -/
def warp_ndarray (a : Arr) (gt : Geotransform) (srcPrj dstPrj : String) (rsp : ℤ)
    (gsd : ℚ × ℚ) (bounds : Extent) (gcps : Option (List GCP)) :
    Arr × Geotransform × String :=
  (Arr.warped a gt srcPrj dstPrj rsp bounds gsd gcps,
   ⟨bounds.xmin, gsd.1, 0, bounds.ymax, 0, -gsd.2⟩,
   dstPrj)

/-- Python exceptions surfaced by the embedded code. -/
inductive PyErr where
  | typeError (msg : String)
  | assertionError (msg : String)
  | runtimeError (msg : String)
deriving DecidableEq

/-- A duck-typed `out_gsd` keyword value: Python lets the caller pass an int,
a float, or a 2-sequence (tuple and list collapse to one case). -/
inductive PyGsd where
  | pyInt (n : ℤ)
  | pyFloat (q : ℚ)
  | pyList (xs : List ℚ)
deriving DecidableEq

/-- Python truthiness of an optional list (`if not self.GCPList`):
`None` and the empty list are falsy. -/
def pyTruthyList {α : Type} (o : Option (List α)) : Bool :=
  match o with
  | some (_ :: _) => true
  | _ => false

/-- Python truthiness of an optional int (`if self.band2process`):
`None` and `0` are falsy. -/
def pyTruthyInt (o : Option ℤ) : Bool :=
  match o with
  | some n => if n = 0 then false else true
  | none => false

/-- DeShifter.py lines 27-28: the fixed resampling-algorithm table
(note the keys `med` and `q2`, exactly as in the source). -/
def _dict_rspAlg_rsp_Int : List (String × ℤ) :=
  [("nearest", 0), ("bilinear", 1), ("cubic", 2), ("cubic_spline", 3), ("lanczos", 4),
   ("average", 5), ("mode", 6), ("max", 7), ("min", 8), ("med", 9), ("q1", 10), ("q2", 11)]

/-- The keys of `_dict_rspAlg_rsp_Int` (Python `dict.keys()`). -/
def rspAlg_keys : List String := _dict_rspAlg_rsp_Int.map Prod.fst

/-- The integer code of a resampling-algorithm name
(`_dict_rspAlg_rsp_Int[name]`; total with junk value 0, the constructor's
assertion makes the lookup succeed on every constructed object). -/
def rspAlg_code (name : String) : ℤ := ((_dict_rspAlg_rsp_Int.lookup name).getD 0)

/-- The `coreg_results` dict (COREG.coreg_info) as consumed by `__init__`:
`GCPList` collapses the key-absent and `None` cases to `none`;
`updated_map_info` is `none` when the stored value is falsy (line 73). -/
structure CoregResults where
  GCPList : Option (List GCP)
  updated_map_info : Option MapInfo
  original_map_info : MapInfo
  reference_geotransform : Geotransform
  reference_grid : OutGrid
  reference_projection : String
deriving DecidableEq

/-- The keyword arguments of `DESHIFTER.__init__` (a field is `none` when the
caller omitted the keyword). -/
structure InitKwargs where
  path_out : Option String
  fmt_out : Option String
  band2process : Option ℤ
  nodata : Option ℚ
  align_grids : Option Bool
  tempAsENVI : Option Bool
  resamp_alg : Option String
  warp_alg : Option String
  cliptoextent : Option Bool
  clipextent : Option Extent
  tempDir : Option String
  CPUs : Option ℕ
  v : Option Bool
  q : Option Bool
  out_gsd : Option PyGsd
  match_gsd : Option Bool
  target_xyGrid : Option (List (ℚ × ℚ))
deriving DecidableEq

/-- All keywords omitted. -/
def defaultKwargs : InitKwargs :=
  ⟨none, none, none, none, none, none, none, none, none, none, none, none,
   none, none, none, none, none⟩

/-- The DESHIFTER object state: constructor-resolved configuration plus the
mutable fields written by `correct_shifts`. -/
structure DESHIFTER where
  im2shift : GeoArrayIn
  shift_prj : String
  shift_gt : Geotransform
  GCPList : Option (List GCP)
  updated_map_info : MapInfo
  original_map_info : MapInfo
  updated_gt : Geotransform
  ref_gt : Geotransform
  ref_grid : OutGrid
  ref_prj : String
  updated_projection : String
  path_out : Option String
  fmt_out : String
  band2process : Option ℤ
  nodata : Option ℚ
  align_grids : Bool
  outFmt : String
  rspAlg : String
  warpAlg : String
  cliptoextent : Bool
  clipextent : Option Extent
  tempDir : String
  CPUs : Option ℕ
  v : Bool
  q : Bool
  out_grid : OutGrid
  out_gsd : ℚ × ℚ
  is_shifted : Bool
  is_resampled : Bool
  tracked_errors : List String
  arr_shifted : Option Arr
  GeoArray_shifted : Option GeoArrayV
deriving DecidableEq

/-- The result record emitted by `correct_shifts` (DeShifter.py lines 304-315,
the `deshift_results` ordered dict). -/
structure ResultRecord where
  band : Option ℤ
  is_shifted : Bool
  is_resampled : Bool
  updated_map_info : MapInfo
  updated_geotransform : Geotransform
  updated_projection : String
  arr_shifted : Option Arr
  GeoArray_shifted : Option GeoArrayV
deriving DecidableEq

/-- DeShifter.py lines 161-173, `DESHIFTER._grids_alignable`: two pixel sizes
are alignable along an axis iff `max % min == 0`; true only when both axes are
alignable (the Python emits an advisory warning when false). -/
def _grids_alignable (in_xgsd in_ygsd out_xgsd out_ygsd : ℚ) : Prop :=
  qmod (qmax in_xgsd out_xgsd) (qmin in_xgsd out_xgsd) = 0 ∧
    qmod (qmax in_ygsd out_ygsd) (qmin in_ygsd out_ygsd) = 0

instance (a b c d : ℚ) : Decidable (_grids_alignable a b c d) := by
  unfold _grids_alignable; infer_instance

/-- DeShifter.py line 124: `get_grid = lambda gt, xgsd, ygsd:
[[gt[0], gt[0] + xgsd], [gt[3], gt[3] - ygsd]]`. -/
def get_grid (gt : Geotransform) (xgsd ygsd : ℚ) : OutGrid :=
  ⟨(gt.c0, gt.c0 + xgsd), (gt.c3, gt.c3 - ygsd)⟩

/-- DeShifter.py lines 119-121: the two shape assertions of `_get_out_grid`.
`assert out_gsd is None or (isinstance(out_gsd, (int, tuple, list)) and
len(out_gsd) == 2)` raises TypeError for an int value, because Python
evaluates `len` on the int after the isinstance check passes. -/
def check_out_grid_kwargs (out_gsd : Option PyGsd)
    (out_grid : Option (List (ℚ × ℚ))) : Except PyErr Unit :=
  match out_grid with
  | none => checkGsd out_gsd
  | some xs => if xs.length = 2 then checkGsd out_gsd else .error (.assertionError "")
where
  checkGsd : Option PyGsd → Except PyErr Unit
    | none => .ok ()
    | some (.pyInt _) => .error (.typeError "object of type int has no len()")
    | some (.pyFloat _) => .error (.assertionError "")
    | some (.pyList xs) => if xs.length = 2 then .ok () else .error (.assertionError "")

/-- DeShifter.py lines 113-158, `DESHIFTER._get_out_grid`: deduce the output
coordinate grid from `target_xyGrid`, `out_gsd`, `match_gsd`, `align_grids`,
the reference grid and the input image's native grid. -/
def DESHIFTER_get_out_grid (ref_grid : OutGrid) (ref_gt : Geotransform)
    (align_grids : Bool) (im2shift : GeoArrayIn) (out_gsd : Option PyGsd)
    (match_gsd : Bool) (target_xyGrid : Option (List (ℚ × ℚ))) :
    Except PyErr OutGrid :=
  match check_out_grid_kwargs out_gsd target_xyGrid with
  | .error e => .error e
  | .ok _ =>
    let ref_xgsd := ref_grid.gx.2 - ref_grid.gx.1
    let ref_ygsd := ref_grid.gy.2 - ref_grid.gy.1
    match target_xyGrid with
    | some (x :: y :: _) =>
      -- output grid is given (after the length-2 assertion the list is [x, y])
      .ok ⟨x, y⟩
    | _ =>
      match out_gsd with
      | some (.pyList (out_xgsd :: out_ygsd :: _)) =>
        -- `[out_gsd, out_gsd] if isinstance(out_gsd, int) else out_gsd`:
        -- the int case cannot reach this point (the assertion raised TypeError)
        if align_grids = true ∧
            _grids_alignable im2shift.xgsd im2shift.ygsd out_xgsd out_ygsd then
          .ok (get_grid ref_gt out_xgsd out_ygsd)
        else
          .ok (get_grid im2shift.geotransform out_xgsd out_ygsd)
      | _ =>
        if match_gsd = true then
          if align_grids = true then .ok ref_grid
          else .ok (get_grid im2shift.geotransform ref_xgsd ref_ygsd)
        else
          if align_grids = true ∧
              _grids_alignable im2shift.xgsd im2shift.ygsd ref_xgsd ref_ygsd then
            .ok (get_grid ref_gt im2shift.xgsd im2shift.ygsd)
          else
            .ok (get_grid im2shift.geotransform im2shift.xgsd im2shift.ygsd)

/-- DeShifter.py lines 31-110, `DESHIFTER.__init__`: unpack the image, the
coregistration results and the keyword arguments, resolve the output grid and
pixel size, and check the resampling-algorithm and warp-strategy names. -/
def DESHIFTER_init (im2shift : GeoArrayIn) (coreg_results : CoregResults)
    (kw : InitKwargs) : Except PyErr DESHIFTER :=
  let shift_prj := im2shift.projection
  let shift_gt := im2shift.geotransform
  let updated_map_info :=
    match coreg_results.updated_map_info with
    | some m => m
    | none => geotransform2mapinfo shift_gt shift_prj
  let updated_gt :=
    match coreg_results.updated_map_info with
    | some m => mapinfo2geotransform m
    | none => shift_gt
  let align_grids := kw.align_grids.getD false
  let tempAsENVI := kw.tempAsENVI.getD false
  let outFmt := if tempAsENVI = false then "VRT" else "ENVI"
  let rspAlg := kw.resamp_alg.getD "cubic"
  let warpAlg := kw.warp_alg.getD "GDAL_lib"
  let v := kw.v.getD false
  let q := if v = false then kw.q.getD false else false
  match DESHIFTER_get_out_grid coreg_results.reference_grid
      coreg_results.reference_geotransform align_grids im2shift kw.out_gsd
      (kw.match_gsd.getD false) kw.target_xyGrid with
  | .error e => .error e
  | .ok out_grid =>
    let out_gsd := (qabs (out_grid.gx.2 - out_grid.gx.1), qabs (out_grid.gy.2 - out_grid.gy.1))
    if rspAlg ∈ rspAlg_keys then
      if warpAlg ∈ ["GDAL_cmd", "GDAL_lib"] then
        .ok
          { im2shift := im2shift
            shift_prj := shift_prj
            shift_gt := shift_gt
            GCPList := coreg_results.GCPList
            updated_map_info := updated_map_info
            original_map_info := coreg_results.original_map_info
            updated_gt := updated_gt
            ref_gt := coreg_results.reference_geotransform
            ref_grid := coreg_results.reference_grid
            ref_prj := coreg_results.reference_projection
            updated_projection := coreg_results.reference_projection
            path_out := kw.path_out
            fmt_out := kw.fmt_out.getD "ENVI"
            band2process := kw.band2process
            nodata := match kw.nodata with | some n => some n | none => im2shift.nodata
            align_grids := align_grids
            outFmt := outFmt
            rspAlg := rspAlg
            warpAlg := warpAlg
            cliptoextent := kw.cliptoextent.getD true
            clipextent := kw.clipextent
            tempDir := kw.tempDir.getD "/dev/shm/"
            CPUs := kw.CPUs
            v := v
            q := q
            out_grid := out_grid
            out_gsd := out_gsd
            is_shifted := false
            is_resampled := false
            tracked_errors := []
            arr_shifted := none
            GeoArray_shifted := none }
      else .error (.assertionError "")
    else .error (.assertionError " is not a supported resampling algorithm.")

/-- DeShifter.py lines 176-190, `DESHIFTER._get_out_extent`: resolve the clip
extent (footprint bounds when clipping without an explicit extent, the raster
bounding box otherwise, overwriting `self.clipextent` in both cases), then snap
it onto the output grid.  Line 189 of the source snaps `ymax` against
`self.out_grid[0]`, the x-axis samples, and is embedded as written. -/
def DESHIFTER_get_out_extent (st : DESHIFTER) : DESHIFTER × Extent :=
  let ce : Extent :=
    if st.cliptoextent = true ∧ st.clipextent = none then
      st.im2shift.footprint_bounds
    else
      let b := st.im2shift.boundsMap
      ⟨b.1, b.2.2.1, b.2.1, b.2.2.2⟩
  let st1 := { st with clipextent := some ce }
  let xmin := find_nearest st1.out_grid.gx ce.xmin .on
  let ymin := find_nearest st1.out_grid.gy ce.ymin .on
  let xmax := find_nearest st1.out_grid.gx ce.xmax .off
  let ymax := find_nearest st1.out_grid.gx ce.ymax .off
  (st1, ⟨xmin, ymin, xmax, ymax⟩)

/-- DeShifter.py line 199, the entry guard of `correct_shifts`:
`equal_prj and is_coord_grid_equal(self.shift_gt, *self.out_grid) and not
self.align_grids`. -/
def noResampleGuard (st : DESHIFTER) : Prop :=
  prj_equal st.ref_prj st.shift_prj ∧ is_coord_grid_equal st.shift_gt st.out_grid ∧
    st.align_grids = false

instance (st : DESHIFTER) : Decidable (noResampleGuard st) := by
  unfold noResampleGuard; infer_instance

/-- The arguments handed to the in-process reprojection engine. -/
structure WarpArgs where
  in_arr : Arr
  in_gt : Geotransform
  in_prj : String
  out_prj : String
  rspAlg : ℤ
  in_nodata : Option ℚ
  out_nodata : Option ℚ
  out_gsd : ℚ × ℚ
  out_bounds : Extent
  gcpList : Option (List GCP)
  CPUs : Option ℕ
  q : Bool
deriving DecidableEq

/-- DeShifter.py lines 269-287, the GDAL_lib branch before the warp call:
select the input array (line 271, Python truthiness of `band2process`), apply
the XY shift to the geotransform origin only when the GCP list is falsy
(lines 272-273), and assemble the `warp_ndarray` arguments (lines 276-287). -/
def gdalLibWarpArgs (st : DESHIFTER) (ext : Extent) : WarpArgs :=
  let in_arr :=
    if pyTruthyInt st.band2process = true then
      Arr.bandOf st.im2shift.arr (st.band2process.getD 0)
    else st.im2shift.arr
  let shift_gt :=
    if pyTruthyList st.GCPList = false then
      { st.shift_gt with c0 := st.updated_gt.c0, c3 := st.updated_gt.c3 }
    else st.shift_gt
  { in_arr := in_arr
    in_gt := shift_gt
    in_prj := st.shift_prj
    out_prj := st.ref_prj
    rspAlg := rspAlg_code st.rspAlg
    in_nodata := st.nodata
    out_nodata := st.nodata
    out_gsd := st.out_gsd
    out_bounds := ext
    gcpList := st.GCPList
    CPUs := st.CPUs
    q := st.q }

/-- Modelled from the spec: the run environment of the external warp command
(§6): the subprocess exit code, whether the output file exists afterwards, and
the georeferencing read back from it. -/
structure WarpEnv where
  exitcode : ℤ
  output_file_exists : Bool
  file_gt : Geotransform
  file_prj : String
deriving DecidableEq

/-- DeShifter.py lines 304-315, `DESHIFTER.deshift_results`: project the
engine state into the ordered result record. -/
def deshift_results (st : DESHIFTER) : ResultRecord :=
  { band := st.band2process
    is_shifted := st.is_shifted
    is_resampled := st.is_resampled
    updated_map_info := st.updated_map_info
    updated_geotransform := st.shift_gt
    updated_projection := st.updated_projection
    arr_shifted := st.arr_shifted
    GeoArray_shifted := st.GeoArray_shifted }

/-- DeShifter.py lines 193-301, `DESHIFTER.correct_shifts`: the two-path
state machine.  Returns the updated object state (Python mutates `self` even
when it raises) together with the result record or the raised error. -/
def correct_shifts (st : DESHIFTER) (env : WarpEnv) :
    DESHIFTER × Except PyErr ResultRecord :=
  if noResampleGuard st then
    -- NO RESAMPLING NEEDED (lines 205-224)
    let st := { st with is_shifted := true, is_resampled := false }
    let p := DESHIFTER_get_out_extent st
    let st := p.1
    let e := p.2
    if st.cliptoextent = true then
      let shifted_geoArr : GeoArrayV := ⟨st.im2shift.arr, st.updated_gt, st.shift_prj⟩
      let m := get_mapPos shifted_geoArr.arr shifted_geoArr.gt st.shift_prj e st.nodata
      let st := { st with arr_shifted := some m.1, updated_gt := m.2.1,
                          updated_projection := m.2.2 }
      let st := { st with updated_map_info := geotransform2mapinfo st.updated_gt st.updated_projection }
      let st := { st with GeoArray_shifted := some ⟨m.1, st.shift_gt, st.updated_projection⟩ }
      (st, .ok (deshift_results st))
    else
      let st := { st with arr_shifted := some st.im2shift.arr }
      let st := { st with GeoArray_shifted := some ⟨st.im2shift.arr, st.shift_gt, st.updated_projection⟩ }
      (st, .ok (deshift_results st))
  else
    -- RESAMPLING NEEDED (lines 226-298)
    if st.warpAlg = "GDAL_cmd" then
      let p := DESHIFTER_get_out_extent st
      let st := p.1
      if env.exitcode ≠ 1 ∧ env.output_file_exists = true then
        let st := { st with shift_gt := env.file_gt, shift_prj := env.file_prj }
        let st := { st with updated_map_info := geotransform2mapinfo st.shift_gt st.shift_prj }
        let arr := Arr.fileRead st.tempDir st.band2process
        let st := { st with arr_shifted := some arr }
        let st := { st with GeoArray_shifted := some ⟨arr, st.shift_gt, st.shift_prj⟩, is_shifted := true, is_resampled := true }
        (st, .ok (deshift_results st))
      else
        let st := { st with tracked_errors := st.tracked_errors ++ ["Resampling failed."] }
        (st, .error (.runtimeError "Resampling failed."))
    else if st.warpAlg = "GDAL_lib" then
      let p := DESHIFTER_get_out_extent st
      let st := p.1
      let args := gdalLibWarpArgs st p.2
      let st := { st with shift_gt := args.in_gt }
      let w := warp_ndarray args.in_arr args.in_gt args.in_prj args.out_prj
                 args.rspAlg args.out_gsd args.out_bounds args.gcpList
      let st := { st with updated_projection := w.2.2, arr_shifted := some w.1 }
      let st := { st with updated_map_info := geotransform2mapinfo w.2.1 w.2.2 }
      let st := { st with shift_gt := mapinfo2geotransform st.updated_map_info }
      let st := { st with GeoArray_shifted := some ⟨w.1, st.shift_gt, st.updated_projection⟩, is_shifted := true, is_resampled := true }
      (st, .ok (deshift_results st))
    else
      (st, .ok (deshift_results st))

/-! Concrete fixtures used by witnesses, counterexamples and failing-input
evaluations: a 10x10 image with 10-unit pixels anchored at (0, 100), north-up,
in projection "P", with data footprint (5, 5, 95, 95). -/

/-- The standard concrete input image of the examples. -/
def gaStd : GeoArrayIn :=
  { arr := .src 0
    geotransform := ⟨0, 10, 0, 100, 0, -10⟩
    projection := "P"
    nodata := some (-9999)
    rows := 10
    cols := 10
    footprint_bounds := ⟨5, 5, 95, 95⟩
    filePath := "img" }

/-- The standard output grid: pitch 10 on both axes, anchored at (0, 100). -/
def gridStd : OutGrid := ⟨(0, 10), (100, 90)⟩

/-- The standard coregistration results: no GCPs, updated origin (1, 99). -/
def coregStd : CoregResults :=
  { GCPList := none
    updated_map_info := some ⟨⟨1, 10, 0, 99, 0, -10⟩, "P"⟩
    original_map_info := ⟨⟨0, 10, 0, 100, 0, -10⟩, "P"⟩
    reference_geotransform := ⟨0, 10, 0, 100, 0, -10⟩
    reference_grid := gridStd
    reference_projection := "P" }

/-- A constructed engine state over the standard fixtures whose entry guard
holds (image grid equals the output grid, equal projections, no grid
alignment requested). -/
def stdState : DESHIFTER :=
  { im2shift := gaStd
    shift_prj := "P"
    shift_gt := ⟨0, 10, 0, 100, 0, -10⟩
    GCPList := none
    updated_map_info := ⟨⟨1, 10, 0, 99, 0, -10⟩, "P"⟩
    original_map_info := ⟨⟨0, 10, 0, 100, 0, -10⟩, "P"⟩
    updated_gt := ⟨1, 10, 0, 99, 0, -10⟩
    ref_gt := ⟨0, 10, 0, 100, 0, -10⟩
    ref_grid := gridStd
    ref_prj := "P"
    updated_projection := "P"
    path_out := none
    fmt_out := "ENVI"
    band2process := none
    nodata := some (-9999)
    align_grids := false
    outFmt := "VRT"
    rspAlg := "cubic"
    warpAlg := "GDAL_lib"
    cliptoextent := true
    clipextent := none
    tempDir := "/dev/shm/"
    CPUs := none
    v := false
    q := false
    out_grid := gridStd
    out_gsd := (10, 10)
    is_shifted := false
    is_resampled := false
    tracked_errors := []
    arr_shifted := none
    GeoArray_shifted := none }

/-- A neutral warp environment (successful subprocess). -/
def envStd : WarpEnv := ⟨0, true, ⟨0, 10, 0, 100, 0, -10⟩, "P"⟩

/-- The engine state of the C1 failing input: the standard engine with an
explicit caller-supplied clip extent (15, 15, 85, 85). -/
def stC1 : DESHIFTER := { stdState with clipextent := some ⟨15, 15, 85, 85⟩ }

/-- The engine state of the C3 failing input: the standard engine with an
output grid whose y axis (pitch 10, anchored at 2) differs from its x axis
(pitch 10, anchored at 0). -/
def stC3 : DESHIFTER := { stdState with out_grid := ⟨(0, 10), (2, 12)⟩ }

/-- The C5 failing keyword set: scalar `out_gsd=20` with `align_grids=True`. -/
def kwC5 : InitKwargs := { defaultKwargs with out_gsd := some (.pyInt 20), align_grids := some true }

/-- The claim's enumerated resampling-algorithm names, written from the spec's
words for comparison with the source's `_dict_rspAlg_rsp_Int` keys. -/
def specRspAlgs : List String :=
  ["nearest", "bilinear", "cubic", "cubic_spline", "lanczos", "average", "mode",
   "max", "min", "median", "q1", "q3"]

/-- The C6 counterexample keyword set: `resamp_alg="median"`. -/
def kwMedian : InitKwargs := { defaultKwargs with resamp_alg := some "median" }

/-- The engine state of the C7 failing input: projections differ, so the
resampling path runs, with the external-process strategy selected. -/
def stC7 : DESHIFTER := { stdState with shift_prj := "Q", warpAlg := "GDAL_cmd" }

/-- The C7 warp environment: the subprocess exits with code 2 while the output
file exists. -/
def envC7 : WarpEnv := ⟨2, true, ⟨3, 10, 0, 97, 0, -10⟩, "P"⟩

/-- The engine state of the C9 witness: a non-empty GCP list is present. -/
def stGCP : DESHIFTER := { stdState with GCPList := some [⟨0⟩] }

/-- A concrete output extent handed to the warp-argument assembly. -/
def extStd : Extent := ⟨0, 0, 100, 100⟩

/-- The C10 witness keyword set: verbose and quiet both requested. -/
def kwV : InitKwargs := { defaultKwargs with v := some true, q := some true }

/-- The engine the constructor builds from the standard fixtures with `kwV`:
verbose on, quiet forced off. -/
def stV : DESHIFTER := { stdState with v := true }

/-! Helper lemmas. -/

theorem qabs_nonneg (a : ℚ) : 0 ≤ qabs a := by
  unfold qabs; split <;> linarith

theorem qabs_pos_of_ne (a : ℚ) (h : a ≠ 0) : 0 < qabs a := by
  unfold qabs
  split
  · linarith
  · exact lt_of_le_of_ne (by linarith) (Ne.symm h)

/-- Rounding on ("up") never returns a value below the target. -/
theorem le_find_nearest_on (g : ℚ × ℚ) (v : ℚ) (h : g.2 - g.1 ≠ 0) :
    v ≤ find_nearest g v .on := by
  unfold find_nearest
  dsimp only
  have hpos : 0 < qabs (g.2 - g.1) := qabs_pos_of_ne _ h
  rw [if_neg (ne_of_gt hpos)]
  set a := qmin g.1 g.2 with ha
  set inc := qabs (g.2 - g.1) with hinc
  have hceil : (v - a) / inc ≤ ((-⌊-((v - a) / inc)⌋ : ℤ) : ℚ) := by
    push_cast
    have := Int.floor_le (-((v - a) / inc))
    linarith
  have hmul := mul_le_mul_of_nonneg_left hceil (le_of_lt hpos)
  have hdiv : inc * ((v - a) / inc) = v - a := by
    field_simp
  linarith [hmul, hdiv]

/-- Rounding off ("down") never returns a value above the target. -/
theorem find_nearest_off_le (g : ℚ × ℚ) (v : ℚ) (h : g.2 - g.1 ≠ 0) :
    find_nearest g v .off ≤ v := by
  unfold find_nearest
  dsimp only
  have hpos : 0 < qabs (g.2 - g.1) := qabs_pos_of_ne _ h
  rw [if_neg (ne_of_gt hpos)]
  set a := qmin g.1 g.2 with ha
  set inc := qabs (g.2 - g.1) with hinc
  have hfloor : ((⌊(v - a) / inc⌋ : ℤ) : ℚ) ≤ (v - a) / inc := Int.floor_le _
  have hmul := mul_le_mul_of_nonneg_left hfloor (le_of_lt hpos)
  have hdiv : inc * ((v - a) / inc) = v - a := by
    field_simp
  linarith [hmul, hdiv]

/-! The claims. -/

/-- C1: the claim states that a caller-supplied explicit `clipextent` is used
as the extent that is then snapped.  The code does the opposite: with
`clipextent = (15, 15, 85, 85)` supplied, `_get_out_extent` overwrites the
stored clip extent with the raster bounding box (0, 0, 100, 100) and snaps
that, so the returned extent is (0, 0, 100, 100) rather than a snapping of the
supplied coordinates (which would be (20, 20, 80, 80)). -/
theorem C1_explicit_clipextent_ignored :
    stC1.clipextent = some ⟨15, 15, 85, 85⟩ ∧
    (DESHIFTER_get_out_extent stC1).1.clipextent = some ⟨0, 0, 100, 100⟩ ∧
    (DESHIFTER_get_out_extent stC1).2 = ⟨0, 0, 100, 100⟩ := by
  refine ⟨rfl, ?_, ?_⟩ <;>
    norm_num [DESHIFTER_get_out_extent, GeoArrayIn.boundsMap, find_nearest,
      qmin, qmax, qabs, stC1, stdState, gaStd, gridStd, Option.some_ne_none]

/-- C2, counterexample: the claim states snapping never shrinks the requested
area (snapped min corners ≤ the pre-snap values) and that (5, 5, 95, 95) with
pitch 10 from 0 snaps to (0, 0, 100, 100).  On the standard engine the
resolved pre-snap extent is the footprint (5, 5, 95, 95) and the snapped
extent is (10, 10, 90, 90): the min corners moved up and the max corners moved
down, inside the requested area. -/
theorem C2_counterexample :
    (DESHIFTER_get_out_extent stdState).1.clipextent = some ⟨5, 5, 95, 95⟩ ∧
    (DESHIFTER_get_out_extent stdState).2 = ⟨10, 10, 90, 90⟩ ∧
    ¬((DESHIFTER_get_out_extent stdState).2.xmin ≤ 5 ∧
      (DESHIFTER_get_out_extent stdState).2.ymin ≤ 5 ∧
      95 ≤ (DESHIFTER_get_out_extent stdState).2.xmax ∧
      95 ≤ (DESHIFTER_get_out_extent stdState).2.ymax) := by
  refine ⟨?_, ?_, ?_⟩ <;>
    norm_num [DESHIFTER_get_out_extent, find_nearest, qmin, qabs, stdState, gaStd, gridStd]

/-- C2, amended: snapping the resolved clip extent onto the output grid never
grows the requested area: the snapped xmin and ymin are greater than or equal
to the pre-snap values and the snapped xmax and ymax are less than or equal to
the pre-snap values (min corners round up/inward, max corners round
down/inward, extrapolating along the grid pitch when the value lies outside
the two grid samples), provided both grid axes have non-zero pitch. -/
theorem C2_snap_never_grows (st : DESHIFTER)
    (hx : st.out_grid.gx.2 - st.out_grid.gx.1 ≠ 0)
    (hy : st.out_grid.gy.2 - st.out_grid.gy.1 ≠ 0)
    (ce : Extent) (hce : (DESHIFTER_get_out_extent st).1.clipextent = some ce) :
    ce.xmin ≤ (DESHIFTER_get_out_extent st).2.xmin ∧
    ce.ymin ≤ (DESHIFTER_get_out_extent st).2.ymin ∧
    (DESHIFTER_get_out_extent st).2.xmax ≤ ce.xmax ∧
    (DESHIFTER_get_out_extent st).2.ymax ≤ ce.ymax := by
  unfold DESHIFTER_get_out_extent at hce ⊢
  dsimp only at hce ⊢
  rw [Option.some.injEq] at hce
  subst hce
  exact ⟨le_find_nearest_on _ _ hx, le_find_nearest_on _ _ hy,
    find_nearest_off_le _ _ hx, find_nearest_off_le _ _ hx⟩

/-- C2, witness: the amended theorem at the standard engine, whose resolved
pre-snap extent is (5, 5, 95, 95) and whose snapped extent is (10, 10, 90, 90). -/
theorem C2_snap_never_grows_witness :
    (5 : ℚ) ≤ (DESHIFTER_get_out_extent stdState).2.xmin ∧
    (5 : ℚ) ≤ (DESHIFTER_get_out_extent stdState).2.ymin ∧
    (DESHIFTER_get_out_extent stdState).2.xmax ≤ (95 : ℚ) ∧
    (DESHIFTER_get_out_extent stdState).2.ymax ≤ (95 : ℚ) :=
  C2_snap_never_grows stdState (by norm_num [stdState, gridStd])
    (by norm_num [stdState, gridStd]) ⟨5, 5, 95, 95⟩
    (by norm_num [DESHIFTER_get_out_extent, stdState, gaStd, gridStd])

/-- C4: `correct_shifts` takes the no-resampling path iff the projections are
equal, the image geotransform coincides with the resolved output grid, and
`align_grids` is false; every successful run (over a constructed engine, whose
warp strategy is one of the two valid names) reports `is_shifted = true`, and
`is_resampled` is false exactly on the no-resampling path and true exactly on
the resampling path. -/
theorem C4_path_and_flags (st : DESHIFTER) (env : WarpEnv)
    (hw : st.warpAlg = "GDAL_cmd" ∨ st.warpAlg = "GDAL_lib") (rec : ResultRecord)
    (h : (correct_shifts st env).2 = .ok rec) :
    rec.is_shifted = true ∧ (rec.is_resampled = false ↔ noResampleGuard st) := by
  by_cases hg : noResampleGuard st
  · unfold correct_shifts at h
    rw [if_pos hg] at h
    dsimp only at h
    by_cases hc : st.cliptoextent = true
    · rw [if_pos (show (DESHIFTER_get_out_extent { st with is_shifted := true, is_resampled := false }).1.cliptoextent = true from by simpa [DESHIFTER_get_out_extent] using hc)] at h
      dsimp only at h
      rw [Except.ok.injEq] at h
      subst h
      simp [deshift_results, DESHIFTER_get_out_extent, hg]
    · rw [if_neg (show ¬(DESHIFTER_get_out_extent { st with is_shifted := true, is_resampled := false }).1.cliptoextent = true from by simpa [DESHIFTER_get_out_extent] using hc)] at h
      dsimp only at h
      rw [Except.ok.injEq] at h
      subst h
      simp [deshift_results, DESHIFTER_get_out_extent, hg]
  · unfold correct_shifts at h
    rw [if_neg hg] at h
    rcases hw with hw | hw
    · rw [if_pos hw] at h
      dsimp only at h
      by_cases he : env.exitcode ≠ 1 ∧ env.output_file_exists = true
      · rw [if_pos he] at h
        dsimp only at h
        rw [Except.ok.injEq] at h
        subst h
        simp [deshift_results, hg]
      · rw [if_neg he] at h
        exact absurd h (by simp)
    · have hw1 : ¬ st.warpAlg = "GDAL_cmd" := by
        rw [hw]; decide
      rw [if_neg hw1, if_pos hw] at h
      dsimp only at h
      rw [Except.ok.injEq] at h
      subst h
      simp [deshift_results, hg]

/-- C4, witness: the theorem applied to the standard engine (no-resampling
path) and the standard environment. -/
theorem C4_path_and_flags_witness :
    ∃ rec, (correct_shifts stdState envStd).2 = .ok rec ∧
      rec.is_shifted = true ∧ (rec.is_resampled = false ↔ noResampleGuard stdState) := by
  have hrec : (correct_shifts stdState envStd).2 =
      .ok
        { band := none
          is_shifted := true
          is_resampled := false
          updated_map_info := ⟨⟨10, 10, 0, 90, 0, -10⟩, "P"⟩
          updated_geotransform := ⟨0, 10, 0, 100, 0, -10⟩
          updated_projection := "P"
          arr_shifted := some (.mapPos (.src 0) ⟨1, 10, 0, 99, 0, -10⟩ "P" ⟨10, 10, 90, 90⟩ (some (-9999)))
          GeoArray_shifted := some ⟨.mapPos (.src 0) ⟨1, 10, 0, 99, 0, -10⟩ "P" ⟨10, 10, 90, 90⟩ (some (-9999)), ⟨0, 10, 0, 100, 0, -10⟩, "P"⟩ } := by
    norm_num [correct_shifts, noResampleGuard, prj_equal, is_coord_grid_equal, onGrid,
      DESHIFTER_get_out_extent, find_nearest, get_mapPos, geotransform2mapinfo,
      deshift_results, qmin, qabs, stdState, gaStd, gridStd, envStd]
  exact ⟨_, hrec, C4_path_and_flags stdState envStd (Or.inr rfl) _ hrec⟩

/-- C5: the claim states scalar `out_gsd=20` with `align_grids=True` succeeds
and anchors the output grid at the reference origin.  The constructor's shape
assertion evaluates `len` on the int after the isinstance check passes, so
Python raises TypeError and construction fails before any grid is resolved. -/
theorem C5_scalar_out_gsd_crashes :
    DESHIFTER_init gaStd coregStd kwC5 =
      .error (.typeError "object of type int has no len()") := rfl

/-- C6, counterexample: the claim states the constructor accepts exactly the
names nearest, bilinear, cubic, cubic_spline, lanczos, average, mode, max,
min, median, q1, q3 and in particular accepts "median".  The source table has
keys `med` and `q2` instead, so construction with `resamp_alg="median"` —
a name inside the claim's set — raises the assertion error. -/
theorem C6_median_rejected :
    "median" ∈ specRspAlgs ∧
    DESHIFTER_init gaStd coregStd kwMedian =
      .error (.assertionError " is not a supported resampling algorithm.") := by
  constructor
  · simp [specRspAlgs]
  · rfl

/-- C6, amended: with well-shaped grid and pixel-size keywords, the
constructor raises exactly when the resampling-algorithm name is outside the
source's fixed 12-name set nearest, bilinear, cubic, cubic_spline, lanczos,
average, mode, max, min, med, q1, q2 (so median and q3 are rejected), or the
warp-strategy name is outside GDAL_cmd / GDAL_lib. -/
theorem C6_name_validation (r w : String) :
    (∃ e, DESHIFTER_init gaStd coregStd
        { defaultKwargs with resamp_alg := some r, warp_alg := some w } = .error e) ↔
      (r ∉ rspAlg_keys ∨ w ∉ ["GDAL_cmd", "GDAL_lib"]) := by
  by_cases hr : r ∈ rspAlg_keys
  · by_cases hw : w ∈ ["GDAL_cmd", "GDAL_lib"]
    · simp [DESHIFTER_init, DESHIFTER_get_out_grid, check_out_grid_kwargs,
        check_out_grid_kwargs.checkGsd, defaultKwargs, hr, hw]
    · simp [DESHIFTER_init, DESHIFTER_get_out_grid, check_out_grid_kwargs,
        check_out_grid_kwargs.checkGsd, defaultKwargs, hr, hw]
  · simp [DESHIFTER_init, DESHIFTER_get_out_grid, check_out_grid_kwargs,
      check_out_grid_kwargs.checkGsd, defaultKwargs, hr]

/-- C7: the claim states the external-process strategy raises "Resampling
failed." whenever the warp subprocess exits with a non-zero exit code.  The
source tests `exitcode != 1` (line 242), so exit code 2 with an existing
output file takes the success path: the run returns a result record, reads
the output back, and records no error. -/
theorem C7_exit_code_2_succeeds :
    envC7.exitcode = 2 ∧ envC7.output_file_exists = true ∧
    (correct_shifts stC7 envC7).2 =
      .ok
        { band := none
          is_shifted := true
          is_resampled := true
          updated_map_info := ⟨⟨3, 10, 0, 97, 0, -10⟩, "P"⟩
          updated_geotransform := ⟨3, 10, 0, 97, 0, -10⟩
          updated_projection := "P"
          arr_shifted := some (.fileRead "/dev/shm/" none)
          GeoArray_shifted := some ⟨.fileRead "/dev/shm/" none, ⟨3, 10, 0, 97, 0, -10⟩, "P"⟩ } ∧
    (correct_shifts stC7 envC7).1.tracked_errors = [] := by
  refine ⟨rfl, rfl, ?_, ?_⟩ <;>
    norm_num [correct_shifts, noResampleGuard, prj_equal, is_coord_grid_equal, onGrid,
      DESHIFTER_get_out_extent, find_nearest, geotransform2mapinfo, deshift_results,
      qmin, qabs, stC7, stdState, gaStd, gridStd, envC7,
      (show ("P" : String) ≠ "Q" from by decide)]

/-- C8, counterexample: the claim states a second `correct_shifts` call on the
same engine after a successful first call yields the identical record.  On the
standard engine (no-resampling path, `cliptoextent=True`) the first call
overwrites the stored clip extent with the footprint bounds, so the second
call resolves the raster bounding box instead and produces a different record
(updated map info (0, 100) instead of (10, 90)). -/
theorem C8_counterexample :
    (correct_shifts stdState envStd).2 =
      .ok
        { band := none
          is_shifted := true
          is_resampled := false
          updated_map_info := ⟨⟨10, 10, 0, 90, 0, -10⟩, "P"⟩
          updated_geotransform := ⟨0, 10, 0, 100, 0, -10⟩
          updated_projection := "P"
          arr_shifted := some (.mapPos (.src 0) ⟨1, 10, 0, 99, 0, -10⟩ "P" ⟨10, 10, 90, 90⟩ (some (-9999)))
          GeoArray_shifted := some ⟨.mapPos (.src 0) ⟨1, 10, 0, 99, 0, -10⟩ "P" ⟨10, 10, 90, 90⟩ (some (-9999)), ⟨0, 10, 0, 100, 0, -10⟩, "P"⟩ } ∧
    (correct_shifts (correct_shifts stdState envStd).1 envStd).2 =
      .ok
        { band := none
          is_shifted := true
          is_resampled := false
          updated_map_info := ⟨⟨0, 10, 0, 100, 0, -10⟩, "P"⟩
          updated_geotransform := ⟨0, 10, 0, 100, 0, -10⟩
          updated_projection := "P"
          arr_shifted := some (.mapPos (.src 0) ⟨10, 10, 0, 90, 0, -10⟩ "P" ⟨0, 0, 100, 100⟩ (some (-9999)))
          GeoArray_shifted := some ⟨.mapPos (.src 0) ⟨10, 10, 0, 90, 0, -10⟩ "P" ⟨0, 0, 100, 100⟩ (some (-9999)), ⟨0, 10, 0, 100, 0, -10⟩, "P"⟩ } ∧
    (⟨⟨10, 10, 0, 90, 0, -10⟩, "P"⟩ : MapInfo) ≠ ⟨⟨0, 10, 0, 100, 0, -10⟩, "P"⟩ := by
  refine ⟨?_, ?_, ?_⟩ <;>
    norm_num [correct_shifts, noResampleGuard, prj_equal, is_coord_grid_equal, onGrid,
      DESHIFTER_get_out_extent, GeoArrayIn.boundsMap, find_nearest, get_mapPos,
      geotransform2mapinfo, deshift_results, qmin, qmax, qabs, stdState, gaStd,
      gridStd, envStd, Option.some_ne_none]

/-- C8, amended: on the no-resampling path with `cliptoextent=False` a second
`correct_shifts` call on the same engine does return the identical record;
with `cliptoextent=True` the first call's mutation of the stored clip extent
(and of the updated geotransform) can change the second call's record. -/
theorem C8_noclip_idempotent (st : DESHIFTER) (env : WarpEnv)
    (hg : noResampleGuard st) (hc : st.cliptoextent = false) :
    (correct_shifts (correct_shifts st env).1 env).2 = (correct_shifts st env).2 := by
  obtain ⟨hg1, hg2, hg3⟩ := hg
  simp [correct_shifts, DESHIFTER_get_out_extent, deshift_results, noResampleGuard,
    hg1, hg2, hg3, hc]

/-- C8, witness: the amended theorem on the standard engine with clipping
turned off. -/
theorem C8_noclip_idempotent_witness :
    (correct_shifts (correct_shifts { stdState with cliptoextent := false } envStd).1 envStd).2 =
      (correct_shifts { stdState with cliptoextent := false } envStd).2 :=
  C8_noclip_idempotent { stdState with cliptoextent := false } envStd
    (by norm_num [noResampleGuard, prj_equal, is_coord_grid_equal, onGrid, qabs,
      stdState, gridStd]) rfl

/-- C9: in the in-process resampling path, a present (non-empty) GCP list
leaves the source geotransform origin untouched and is forwarded to the
reprojection engine; with no GCP list the origin is overwritten with the
updated origin and no GCP list is forwarded. -/
theorem C9_gcp_supersedes_origin_shift (st : DESHIFTER) (ext : Extent) :
    (∀ l, st.GCPList = some l → l ≠ [] →
      (gdalLibWarpArgs st ext).in_gt = st.shift_gt ∧
        (gdalLibWarpArgs st ext).gcpList = some l) ∧
    (st.GCPList = none →
      (gdalLibWarpArgs st ext).in_gt =
          { st.shift_gt with c0 := st.updated_gt.c0, c3 := st.updated_gt.c3 } ∧
        (gdalLibWarpArgs st ext).gcpList = none) := by
  constructor
  · intro l hl hne
    rcases l with _ | ⟨g, l⟩
    · exact absurd rfl hne
    · simp [gdalLibWarpArgs, pyTruthyList, hl]
  · intro hl
    simp [gdalLibWarpArgs, pyTruthyList, hl]

/-- C9, witness: the theorem applied to the standard engine carrying the GCP
list `[⟨0⟩]`: the forwarded geotransform is the untouched source geotransform
and the list is forwarded unchanged. -/
theorem C9_gcp_supersedes_origin_shift_witness :
    (gdalLibWarpArgs stGCP extStd).in_gt = stGCP.shift_gt ∧
      (gdalLibWarpArgs stGCP extStd).gcpList = some [⟨0⟩] :=
  (C9_gcp_supersedes_origin_shift stGCP extStd).1 [⟨0⟩] rfl (by simp)

/-- C10: requesting verbose mode at construction forces quiet mode off: any
successfully constructed engine with `v=True` has `q = false` regardless of
the `q` keyword. -/
theorem C10_verbose_forces_quiet (ga : GeoArrayIn) (coreg : CoregResults)
    (kw : InitKwargs) (hv : kw.v = some true) (st : DESHIFTER)
    (h : DESHIFTER_init ga coreg kw = .ok st) : st.q = false := by
  unfold DESHIFTER_init at h
  rw [hv] at h
  simp only [Option.getD_some] at h
  rcases hgr : DESHIFTER_get_out_grid coreg.reference_grid
      coreg.reference_geotransform (kw.align_grids.getD false) ga kw.out_gsd
      (kw.match_gsd.getD false) kw.target_xyGrid with e | g
  · rw [hgr] at h
    exact absurd h (by simp)
  · rw [hgr] at h
    try dsimp only at h
    split_ifs at h
    all_goals
      first
      | contradiction
      | (rw [Except.ok.injEq] at h; subst h; simp)

/-- C10, witness: the theorem applied to the standard fixtures with
`v=True, q=True`: construction succeeds and the engine's `q` is false. -/
theorem C10_verbose_forces_quiet_witness :
    DESHIFTER_init gaStd coregStd kwV = .ok stV ∧ stV.q = false := by
  have h : DESHIFTER_init gaStd coregStd kwV = .ok stV := by
    norm_num [DESHIFTER_init, DESHIFTER_get_out_grid, check_out_grid_kwargs,
      check_out_grid_kwargs.checkGsd, get_grid, GeoArrayIn.xgsd, GeoArrayIn.ygsd,
      qabs, rspAlg_keys, _dict_rspAlg_rsp_Int, geotransform2mapinfo,
      mapinfo2geotransform, gaStd, coregStd, defaultKwargs, kwV, stV, stdState, gridStd]
  exact ⟨h, C10_verbose_forces_quiet gaStd coregStd kwV rfl stV h⟩

/-- C3: the claim states every coordinate of a resolved clip extent lies on
the output grid line of its own axis.  The source (line 189) snaps `ymax`
against `out_grid[0]`, the x axis: with x grid (0, 10) and y grid (2, 12) the
footprint ymax 95 snaps to 90, which does not lie on the y-axis lattice
{2 + 10k}. -/
theorem C3_ymax_snapped_on_x_axis :
    (DESHIFTER_get_out_extent stC3).2 = ⟨10, 12, 90, 90⟩ ∧
    ¬ onGrid stC3.out_grid.gy (DESHIFTER_get_out_extent stC3).2.ymax := by
  constructor <;>
    norm_num [DESHIFTER_get_out_extent, find_nearest, onGrid, qmin, qabs,
      stC3, stdState, gaStd, gridStd]

end Arosics
